import Mathlib

/-!
Verification of the GymBuddy repetition-tracking core against its
natural-language specification.

The definitions below are a shallow embedding of the Python sources:
  * `src/backend/exercises/__init__.py`  (severity table, `BaseTracker`)
  * `src/backend/exercises/bicep_curl.py` (`CurlTracker`)
  * `src/exercises/lateral_raise.py`      (`LateralRaiseTracker`)
  * `src/pose_tracker.py`                 (`ExerciseConfig`, `WorkoutRoutine`,
                                           `WorkoutSession`)

Angles, distances, ratios and timestamps (Python floats) are modelled as
rationals; Python ints as `ℤ`/`ℕ`.  Python's stable `list.sort(key=...)` is
modelled with the stable structural `List.insertionSort`.  A Python dict used
as an insertion-ordered map (`_live_triggers`) is modelled as an association
list with unique keys, where assignment to an existing key updates in place
and assignment to a fresh key appends.
-/

/- ------------------------------------------------------------------ -/
/- Severity system, src/backend/exercises/__init__.py                  -/
/- ------------------------------------------------------------------ -/

def SEV_GOOD : String := "good"
def SEV_INFO : String := "info"
def SEV_WARN : String := "warn"
def SEV_BAD : String := "bad"

/-- Source `SEV_PRIORITY.get(sev, 99)`: the sort key used on issue lists. -/
def sevPriority (sev : String) : ℕ :=
  if sev = SEV_BAD then 0
  else if sev = SEV_WARN then 1
  else if sev = SEV_INFO then 2
  else if sev = SEV_GOOD then 3
  else 99

/-- An issue is a `(message, severity)` pair. -/
abbrev Issue := String × String

/-- Ordering used by `issues.sort(key=lambda x: SEV_PRIORITY.get(x[1], 99))`. -/
def issueLe (a b : Issue) : Prop := sevPriority a.2 ≤ sevPriority b.2

instance : DecidableRel issueLe := fun a b =>
  inferInstanceAs (Decidable (sevPriority a.2 ≤ sevPriority b.2))

instance : IsTotal Issue issueLe := ⟨fun a b => Nat.le_total _ _⟩

instance : IsTrans Issue issueLe := ⟨fun _ _ _ hab hbc => Nat.le_trans hab hbc⟩

/-- Source `issues.sort(key=...)`: Python's sort is stable, as is insertion sort. -/
def sortIssues (l : List Issue) : List Issue := l.insertionSort issueLe

/- ------------------------------------------------------------------ -/
/- BaseTracker live-alert plumbing                                     -/
/- ------------------------------------------------------------------ -/

/-- Source `_live_triggers`: insertion-ordered map message ↦ (severity, last time). -/
abbrev LiveTriggers := List (String × String × ℚ)

/-- Source `BaseTracker.LIVE_GRACE = 0.35`. -/
def LIVE_GRACE : ℚ := 7/100 * 5

/-- Source `BaseTracker._trigger`: `self._live_triggers[msg] = (sev, now)` -- dict
assignment updates an existing key in place, else appends at the end. -/
def trigger (m : LiveTriggers) (msg sev : String) (now : ℚ) : LiveTriggers :=
  if m.any (fun e => e.1 = msg) then
    m.map (fun e => if e.1 = msg then (msg, sev, now) else e)
  else
    m ++ [(msg, sev, now)]

/-- The `active` list built by `BaseTracker.get_live_alerts`. -/
def liveActive (m : LiveTriggers) (now : ℚ) : List Issue :=
  m.filterMap (fun e => if now - e.2.2 ≤ LIVE_GRACE then some (e.1, e.2.1) else none)

/-- The map left behind by `BaseTracker.get_live_alerts` after the expired
keys are deleted. -/
def liveAfterRead (m : LiveTriggers) (now : ℚ) : LiveTriggers :=
  m.filter (fun e => decide (now - e.2.2 ≤ LIVE_GRACE))

/-- Source `BaseTracker.get_live_alerts(now)`: returns the active alerts and, as a
side effect, evicts every expired entry.  Modelled as a pair
(result, new map). -/
def get_live_alerts (m : LiveTriggers) (now : ℚ) : List Issue × LiveTriggers :=
  (liveActive m now, liveAfterRead m now)

/-- Source `BaseTracker._build_speech_queue`. -/
def build_speech_queue (issues : List Issue) : List String :=
  let voiced := (issues.filter (fun i => i.2 == SEV_BAD || i.2 == SEV_WARN)).map Prod.fst
  if voiced = [] then ["Good job!"] else voiced

/- ------------------------------------------------------------------ -/
/- Injury monitor constants and BaseTracker._check_injury_risk         -/
/- ------------------------------------------------------------------ -/

def INJURY_CRITICAL_SCORE : ℤ := 25
def INJURY_BAD_SCORE : ℤ := 40
def INJURY_CONSECUTIVE_LIMIT : ℕ := 3

/- ------------------------------------------------------------------ -/
/- CurlTracker, src/backend/exercises/bicep_curl.py                    -/
/- ------------------------------------------------------------------ -/

structure CurlTracker where
  side : String
  reps : ℕ
  cur_elbow : ℚ
  live_triggers : LiveTriggers
  active_feedback : List Issue
  feedback_expiry : ℚ
  last_score : ℤ
  rep_scores : List ℤ
  speech_queue : List String
  consecutive_bad : ℕ
  injury_warning : Bool
  phase : String
  min_elbow : ℚ
  max_elbow : ℚ
  peak_swing : ℚ
  peak_lean : ℚ
  peak_wrist_dev : ℚ
  peak_flare : ℚ
  shrug_detected : Bool
  min_supination : ℚ
  phase_start : ℚ
  con_time : ℚ
  ref_sh_ear : ℚ
  sh_ear_samples : List ℚ
deriving DecidableEq

namespace CurlTracker

def PHASE_DOWN : String := "down"
def PHASE_UP : String := "up"

def CURL_TOP : ℚ := 60
def CURL_BOTTOM : ℚ := 140

def W_ELBOW_PIN : ℕ := 20
def W_LEAN : ℕ := 15
def W_ROM_TOP : ℕ := 10
def W_ROM_BOTTOM : ℕ := 10
def W_WRIST : ℕ := 10
def W_SHRUG : ℕ := 10
def W_FLARE : ℕ := 10
def W_TEMPO_CON : ℕ := 7
def W_TEMPO_ECC : ℕ := 8
def W_SUPINATION : ℕ := 10

def SWING_OK : ℚ := 15
def SWING_WARN : ℚ := 30
def SWING_BAD : ℚ := 45

def LEAN_OK : ℚ := 10
def LEAN_WARN : ℚ := 18
def LEAN_BAD : ℚ := 28

def ROM_TOP_GOOD : ℚ := 50
def ROM_TOP_OK : ℚ := 70
def ROM_BOTTOM_GOOD : ℚ := 155
def ROM_BOTTOM_OK : ℚ := 130

def WRIST_DEV_OK : ℚ := 15
def WRIST_DEV_WARN : ℚ := 30

def SHRUG_RATIO_WARN : ℚ := 65/100

def FLARE_OK : ℚ := 5/100
def FLARE_WARN : ℚ := 9/100

def SUP_GOOD : ℚ := 35/100
def SUP_NEUTRAL : ℚ := 5/100

def CON_MIN : ℚ := 6/10
def CON_MAX : ℚ := 3
def ECC_MIN : ℚ := 1
def ECC_MAX : ℚ := 45/10

/-- Source `CurlTracker.__init__`. -/
def init (side : String) : CurlTracker where
  side := side
  reps := 0
  cur_elbow := 180
  live_triggers := []
  active_feedback := []
  feedback_expiry := 0
  last_score := 0
  rep_scores := []
  speech_queue := []
  consecutive_bad := 0
  injury_warning := false
  phase := PHASE_DOWN
  min_elbow := 180
  max_elbow := 0
  peak_swing := 0
  peak_lean := 0
  peak_wrist_dev := 0
  peak_flare := 0
  shrug_detected := false
  min_supination := 1
  phase_start := 0
  con_time := 0
  ref_sh_ear := 0
  sh_ear_samples := []

/-- Source `BaseTracker._check_injury_risk` (defined on the base class; note that
no `_finish_rep` in the repository ever calls it). -/
def check_injury_risk (t : CurlTracker) : CurlTracker :=
  let score := t.last_score
  let t := if score ≤ INJURY_BAD_SCORE then
             { t with consecutive_bad := t.consecutive_bad + 1 }
           else
             { t with consecutive_bad := t.consecutive_bad - 1 }
  if score ≤ INJURY_CRITICAL_SCORE then
    { t with injury_warning := true,
             speech_queue :=
               "Warning! That rep had very poor form and could cause injury. Lower the weight or fix your form before continuing." :: t.speech_queue }
  else if t.consecutive_bad ≥ INJURY_CONSECUTIVE_LIMIT then
    { t with injury_warning := true,
             speech_queue :=
               "Careful! Multiple reps with bad form. You risk hurting yourself. Take a break or reduce the weight." :: t.speech_queue }
  else
    { t with injury_warning := false }

/-- The ten graduated form checks of `CurlTracker._finish_rep`, in source
order, each contributing its issue together with the weight subtracted from
the score (Python `//` on the positive weight constants is `Nat` division). -/
def repChecks (t : CurlTracker) (ecc_time : ℚ) : List (Issue × ℕ) :=
  (if t.peak_swing > SWING_BAD then
     [(("Elbow swinging a lot - pin it to your side", SEV_BAD), W_ELBOW_PIN)]
   else if t.peak_swing > SWING_WARN then
     [(("Elbow drifting forward - keep it pinned", SEV_WARN), W_ELBOW_PIN / 2)]
   else if t.peak_swing > SWING_OK then
     [(("Slight elbow drift - try to keep it tighter", SEV_INFO), W_ELBOW_PIN / 4)]
   else [])
  ++ (if t.peak_lean > LEAN_BAD then
        [(("Too much body lean - you\x27re using momentum", SEV_BAD), W_LEAN)]
      else if t.peak_lean > LEAN_WARN then
        [(("Leaning back a bit - brace your core", SEV_WARN), W_LEAN / 2)]
      else if t.peak_lean > LEAN_OK then
        [(("Minor torso sway detected", SEV_INFO), W_LEAN / 4)]
      else [])
  ++ (if t.min_elbow > ROM_TOP_OK then
        [(("Curl higher - squeeze at the top", SEV_WARN), W_ROM_TOP)]
      else if t.min_elbow > ROM_TOP_GOOD then
        [(("Almost full contraction - try to squeeze more", SEV_INFO), W_ROM_TOP / 2)]
      else [])
  ++ (if t.max_elbow < ROM_BOTTOM_OK then
        [(("Extend your arm more at the bottom", SEV_WARN), W_ROM_BOTTOM)]
      else if t.max_elbow < ROM_BOTTOM_GOOD then
        [(("Slightly short extension - straighten a bit more", SEV_INFO), W_ROM_BOTTOM / 2)]
      else [])
  ++ (if t.shrug_detected then
        [(("Shoulder hiking up - relax your traps", SEV_WARN), W_SHRUG)]
      else [])
  ++ (if t.peak_flare > FLARE_WARN then
        [(("Elbow flaring out - keep it tucked in", SEV_WARN), W_FLARE)]
      else if t.peak_flare > FLARE_OK then
        [(("Slight elbow flare - tuck it closer", SEV_INFO), W_FLARE / 2)]
      else [])
  ++ (if t.min_supination < SUP_NEUTRAL then
        [(("Rotate palm up - supinate your grip", SEV_WARN), W_SUPINATION)]
      else if t.min_supination < SUP_GOOD then
        [(("Grip slightly neutral - supinate more", SEV_INFO), W_SUPINATION / 2)]
      else [])
  ++ (if t.con_time > 0 then
        (if t.con_time < CON_MIN then
           [(("Lifting too fast - slow down", SEV_WARN), W_TEMPO_CON)]
         else if t.con_time > CON_MAX then
           [(("Lifting too slow - may lose tension", SEV_WARN), W_TEMPO_CON / 2)]
         else [])
      else [])
  ++ (if ecc_time > 0 then
        (if ecc_time < ECC_MIN then
           [(("Lowering too fast - control the negative", SEV_WARN), W_TEMPO_ECC)]
         else if ecc_time > ECC_MAX then
           [(("Lowering too slow", SEV_WARN), W_TEMPO_ECC / 3)]
         else [])
      else [])

/-- Source `CurlTracker._finish_rep`: increment the rep, score the accumulated
metrics (start at 100, subtract each failed check's weight, clamp at 0),
sort the issues by severity priority, publish feedback and speech, and reset
the per-rep accumulators. -/
def finishRep (t : CurlTracker) (now ecc_time : ℚ) : CurlTracker :=
  let checks := t.repChecks ecc_time
  let issues := sortIssues (checks.map Prod.fst)
  let score : ℤ := max (100 - ((checks.map Prod.snd).sum : ℤ)) 0
  { t with
    phase := PHASE_DOWN
    reps := t.reps + 1
    phase_start := now
    last_score := score
    rep_scores := t.rep_scores ++ [score]
    active_feedback := if issues = [] then [("Perfect rep!", SEV_GOOD)] else issues
    feedback_expiry := now + 5
    speech_queue := build_speech_queue issues
    peak_swing := 0
    peak_lean := 0
    min_elbow := 180
    max_elbow := 0
    peak_wrist_dev := 0
    peak_flare := 0
    shrug_detected := false
    min_supination := 1
    con_time := 0 }

/-- Source `CurlTracker._update_shrug_ref`. -/
def updateShrugRef (t : CurlTracker) (sh_ear : Option ℚ) : CurlTracker :=
  match sh_ear with
  | none => t
  | some v =>
    if v < 1/100 then t
    else if t.sh_ear_samples.length < 30 then
      { t with sh_ear_samples := t.sh_ear_samples ++ [v],
               ref_sh_ear := (t.sh_ear_samples ++ [v]).foldl max 0 }
    else if t.ref_sh_ear > 0 ∧ v < t.ref_sh_ear * SHRUG_RATIO_WARN then
      { t with shrug_detected := true }
    else t

/-- The per-frame accumulator updates at the top of `CurlTracker.update`. -/
def accumulate (t : CurlTracker) (elbow_angle shoulder_angle : ℚ)
    (body_lean wrist_angle elbow_flare_dist supination : Option ℚ) : CurlTracker :=
  { t with
    cur_elbow := elbow_angle
    min_elbow := min t.min_elbow elbow_angle
    max_elbow := max t.max_elbow elbow_angle
    peak_swing := max t.peak_swing shoulder_angle
    peak_lean := match body_lean with
                 | some v => max t.peak_lean v
                 | none => t.peak_lean
    peak_wrist_dev := match wrist_angle with
                      | some v => max t.peak_wrist_dev |180 - v|
                      | none => t.peak_wrist_dev
    peak_flare := match elbow_flare_dist with
                  | some v => max t.peak_flare v
                  | none => t.peak_flare
    min_supination := match supination with
                      | some v => min t.min_supination v
                      | none => t.min_supination }

/-- The live mid-rep alert block of `CurlTracker.update`. -/
def liveChecks (t : CurlTracker) (shoulder_angle : ℚ)
    (body_lean elbow_flare_dist supination : Option ℚ) (now : ℚ) : CurlTracker :=
  let m := t.live_triggers
  let m := if shoulder_angle > SWING_BAD then trigger m "Pin elbow to side!" SEV_BAD now
           else if shoulder_angle > SWING_WARN then trigger m "Elbow drifting" SEV_WARN now
           else m
  let m := match body_lean with
           | some v =>
             if v > LEAN_BAD then trigger m "Stop leaning back!" SEV_BAD now
             else if v > LEAN_WARN then trigger m "Brace your core" SEV_WARN now
             else m
           | none => m
  let m := if t.shrug_detected then trigger m "Relax traps!" SEV_WARN now else m
  let m := match elbow_flare_dist with
           | some v => if v > FLARE_WARN then trigger m "Tuck elbow in!" SEV_WARN now else m
           | none => m
  let m := match supination with
           | some v => if v < SUP_NEUTRAL then trigger m "Supinate - rotate palm up!" SEV_WARN now else m
           | none => m
  { t with live_triggers := m }

/-- Source `CurlTracker.update`: accumulators, shrug-reference calibration, live
alerts, then the hysteretic phase transitions (`0.0` is falsy in Python, so
a zero `_phase_start` yields a zero duration). -/
def update (t : CurlTracker) (elbow_angle shoulder_angle : ℚ)
    (body_lean wrist_angle shoulder_ear_dist elbow_flare_dist supination : Option ℚ)
    (now : ℚ) : CurlTracker :=
  let t := t.accumulate elbow_angle shoulder_angle body_lean wrist_angle
             elbow_flare_dist supination
  let t := t.updateShrugRef shoulder_ear_dist
  let t := t.liveChecks shoulder_angle body_lean elbow_flare_dist supination now
  if t.phase = PHASE_DOWN ∧ elbow_angle < CURL_TOP then
    { t with phase := PHASE_UP
             con_time := if t.phase_start ≠ 0 then now - t.phase_start else 0
             phase_start := now }
  else if t.phase = PHASE_UP ∧ elbow_angle > CURL_BOTTOM then
    t.finishRep now (if t.phase_start ≠ 0 then now - t.phase_start else 0)
  else t

end CurlTracker

/-- One frame of inputs to `CurlTracker.update`. -/
structure CurlInput where
  elbow : ℚ
  shoulder : ℚ
  lean : Option ℚ
  wrist : Option ℚ
  sh_ear : Option ℚ
  flare : Option ℚ
  sup : Option ℚ
  now : ℚ
deriving DecidableEq

def curlStep (t : CurlTracker) (i : CurlInput) : CurlTracker :=
  t.update i.elbow i.shoulder i.lean i.wrist i.sh_ear i.flare i.sup i.now

def runCurl (t : CurlTracker) (l : List CurlInput) : CurlTracker :=
  l.foldl curlStep t

/- ------------------------------------------------------------------ -/
/- LateralRaiseTracker, src/exercises/lateral_raise.py                 -/
/- ------------------------------------------------------------------ -/

structure LateralRaiseTracker where
  side : String
  reps : ℕ
  cur_elbow : ℚ
  live_triggers : LiveTriggers
  active_feedback : List Issue
  feedback_expiry : ℚ
  last_score : ℤ
  rep_scores : List ℤ
  speech_queue : List String
  consecutive_bad : ℕ
  injury_warning : Bool
  phase : String
  peak_shoulder_angle : ℚ
  min_elbow_angle : ℚ
  peak_lean : ℚ
  shrug_detected : Bool
  phase_start : ℚ
  up_time : ℚ
  ref_sh_ear : ℚ
  sh_ear_samples : List ℚ
  cur_shoulder_angle : ℚ
deriving DecidableEq

namespace LateralRaiseTracker

def PHASE_DOWN : String := "down"
def PHASE_UP : String := "up"

def RAISE_TOP : ℚ := 70
def RAISE_BOTTOM : ℚ := 30

def W_HEIGHT : ℕ := 25
def W_ELBOW_BEND : ℕ := 15
def W_SHRUG : ℕ := 15
def W_LEAN : ℕ := 15
def W_OVER_RAISE : ℕ := 10
def W_TEMPO_UP : ℕ := 10
def W_TEMPO_DOWN : ℕ := 10

def HEIGHT_GOOD : ℚ := 75
def HEIGHT_OK : ℚ := 55
def OVER_RAISE : ℚ := 110

def ELBOW_TOO_BENT : ℚ := 120
def ELBOW_SLIGHTLY_BENT : ℚ := 145
def ELBOW_TOO_STRAIGHT : ℚ := 175

def LEAN_OK : ℚ := 8
def LEAN_WARN : ℚ := 15
def LEAN_BAD : ℚ := 25

def SHRUG_RATIO_WARN : ℚ := 65/100

def UP_MIN : ℚ := 6/10
def UP_MAX : ℚ := 3
def DOWN_MIN : ℚ := 8/10
def DOWN_MAX : ℚ := 4

/-- Source `LateralRaiseTracker.__init__`. -/
def init (side : String) : LateralRaiseTracker where
  side := side
  reps := 0
  cur_elbow := 180
  live_triggers := []
  active_feedback := []
  feedback_expiry := 0
  last_score := 0
  rep_scores := []
  speech_queue := []
  consecutive_bad := 0
  injury_warning := false
  phase := PHASE_DOWN
  peak_shoulder_angle := 0
  min_elbow_angle := 180
  peak_lean := 0
  shrug_detected := false
  phase_start := 0
  up_time := 0
  ref_sh_ear := 0
  sh_ear_samples := []
  cur_shoulder_angle := 0

/-- The seven graduated form checks of `LateralRaiseTracker._finish_rep`,
in source order, with the weight each subtracts. -/
def repChecks (t : LateralRaiseTracker) (down_time : ℚ) : List (Issue × ℕ) :=
  (if t.peak_shoulder_angle < HEIGHT_OK then
     [(("Raise arms higher - reach shoulder level", SEV_BAD), W_HEIGHT)]
   else if t.peak_shoulder_angle < HEIGHT_GOOD then
     [(("Almost there - raise a bit higher", SEV_WARN), W_HEIGHT / 2)]
   else [])
  ++ (if t.peak_shoulder_angle > OVER_RAISE then
        [(("Arms too high - stop at shoulder level", SEV_WARN), W_OVER_RAISE)]
      else [])
  ++ (if t.min_elbow_angle < ELBOW_TOO_BENT then
        [(("Arms too bent - extend elbows more", SEV_WARN), W_ELBOW_BEND)]
      else if t.min_elbow_angle < ELBOW_SLIGHTLY_BENT then
        [(("Elbows bending a bit much", SEV_INFO), W_ELBOW_BEND / 3)]
      else if t.min_elbow_angle > ELBOW_TOO_STRAIGHT then
        [(("Don\x27t lock elbows - keep a slight bend", SEV_INFO), W_ELBOW_BEND / 4)]
      else [])
  ++ (if t.shrug_detected then
        [(("Traps taking over - relax shoulders down", SEV_WARN), W_SHRUG)]
      else [])
  ++ (if t.peak_lean > LEAN_BAD then
        [(("Too much body sway - using momentum", SEV_BAD), W_LEAN)]
      else if t.peak_lean > LEAN_WARN then
        [(("Slight lean - tighten your core", SEV_WARN), W_LEAN / 2)]
      else if t.peak_lean > LEAN_OK then
        [(("Minor sway detected", SEV_INFO), W_LEAN / 4)]
      else [])
  ++ (if t.up_time > 0 then
        (if t.up_time < UP_MIN then
           [(("Raising too fast - slow down", SEV_WARN), W_TEMPO_UP)]
         else if t.up_time > UP_MAX then
           [(("Raising too slow", SEV_INFO), W_TEMPO_UP / 3)]
         else [])
      else [])
  ++ (if down_time > 0 then
        (if down_time < DOWN_MIN then
           [(("Lowering too fast - control it", SEV_WARN), W_TEMPO_DOWN)]
         else if down_time > DOWN_MAX then
           [(("Lowering too slow", SEV_INFO), W_TEMPO_DOWN / 3)]
         else [])
      else [])

/-- Source `LateralRaiseTracker._finish_rep`. -/
def finishRep (t : LateralRaiseTracker) (now down_time : ℚ) : LateralRaiseTracker :=
  let checks := t.repChecks down_time
  let issues := sortIssues (checks.map Prod.fst)
  let score : ℤ := max (100 - ((checks.map Prod.snd).sum : ℤ)) 0
  { t with
    phase := PHASE_DOWN
    reps := t.reps + 1
    phase_start := now
    last_score := score
    rep_scores := t.rep_scores ++ [score]
    active_feedback := if issues = [] then [("Perfect rep!", SEV_GOOD)] else issues
    feedback_expiry := now + 5
    speech_queue := build_speech_queue issues
    peak_shoulder_angle := 0
    min_elbow_angle := 180
    peak_lean := 0
    shrug_detected := false
    up_time := 0 }

/-- Source `LateralRaiseTracker._update_shrug_ref`. -/
def updateShrugRef (t : LateralRaiseTracker) (sh_ear : Option ℚ) : LateralRaiseTracker :=
  match sh_ear with
  | none => t
  | some v =>
    if v < 1/100 then t
    else if t.sh_ear_samples.length < 30 then
      { t with sh_ear_samples := t.sh_ear_samples ++ [v],
               ref_sh_ear := (t.sh_ear_samples ++ [v]).foldl max 0 }
    else if t.ref_sh_ear > 0 ∧ v < t.ref_sh_ear * SHRUG_RATIO_WARN then
      { t with shrug_detected := true }
    else t

/-- The per-frame accumulator updates at the top of
`LateralRaiseTracker.update`. -/
def accumulate (t : LateralRaiseTracker) (shoulder_angle elbow_angle : ℚ)
    (body_lean : Option ℚ) : LateralRaiseTracker :=
  { t with
    cur_shoulder_angle := shoulder_angle
    peak_shoulder_angle := max t.peak_shoulder_angle shoulder_angle
    min_elbow_angle := min t.min_elbow_angle elbow_angle
    peak_lean := match body_lean with
                 | some v => max t.peak_lean v
                 | none => t.peak_lean }

/-- The live mid-rep alert block of `LateralRaiseTracker.update`. -/
def liveChecks (t : LateralRaiseTracker) (shoulder_angle elbow_angle : ℚ)
    (body_lean : Option ℚ) (now : ℚ) : LateralRaiseTracker :=
  let m := t.live_triggers
  let m := if shoulder_angle > OVER_RAISE then
             trigger m "Too high! Stop at shoulder level" SEV_BAD now
           else m
  let m := match body_lean with
           | some v =>
             if v > LEAN_BAD then trigger m "Stop swaying!" SEV_BAD now
             else if v > LEAN_WARN then trigger m "Brace your core" SEV_WARN now
             else m
           | none => m
  let m := if t.shrug_detected then
             trigger m "Relax traps - don\x27t shrug!" SEV_WARN now
           else m
  let m := if elbow_angle < ELBOW_TOO_BENT then
             trigger m "Straighten arms more!" SEV_WARN now
           else if elbow_angle > ELBOW_TOO_STRAIGHT then
             trigger m "Bend elbows slightly!" SEV_WARN now
           else m
  { t with live_triggers := m }

/-- Source `LateralRaiseTracker.update`. -/
def update (t : LateralRaiseTracker) (shoulder_angle elbow_angle : ℚ)
    (body_lean shoulder_ear_dist : Option ℚ) (now : ℚ) : LateralRaiseTracker :=
  let t := t.accumulate shoulder_angle elbow_angle body_lean
  let t := t.updateShrugRef shoulder_ear_dist
  let t := t.liveChecks shoulder_angle elbow_angle body_lean now
  if t.phase = PHASE_DOWN ∧ shoulder_angle > RAISE_TOP then
    { t with phase := PHASE_UP
             up_time := if t.phase_start ≠ 0 then now - t.phase_start else 0
             phase_start := now }
  else if t.phase = PHASE_UP ∧ shoulder_angle < RAISE_BOTTOM then
    t.finishRep now (if t.phase_start ≠ 0 then now - t.phase_start else 0)
  else t

end LateralRaiseTracker

/-- One frame of inputs to `LateralRaiseTracker.update`. -/
structure RaiseInput where
  shoulder : ℚ
  elbow : ℚ
  lean : Option ℚ
  sh_ear : Option ℚ
  now : ℚ
deriving DecidableEq

def raiseStep (t : LateralRaiseTracker) (i : RaiseInput) : LateralRaiseTracker :=
  t.update i.shoulder i.elbow i.lean i.sh_ear i.now

def runRaise (t : LateralRaiseTracker) (l : List RaiseInput) : LateralRaiseTracker :=
  l.foldl raiseStep t

/- ------------------------------------------------------------------ -/
/- ExerciseConfig / WorkoutRoutine, src/pose_tracker.py                -/
/- ------------------------------------------------------------------ -/

structure ExerciseConfig where
  exercise : String
  sets : ℤ
  reps : ℤ
  rest_seconds : ℚ
deriving DecidableEq

/-- Source `WorkoutRoutine` state: the deque (front first), the immutable total,
the completed counter, the `current` slot and the `done` flag. -/
structure WorkoutRoutine where
  queue : List ExerciseConfig
  total : ℕ
  completed : ℕ
  current : Option ExerciseConfig
  done : Bool
deriving DecidableEq

namespace WorkoutRoutine

/-- Source `WorkoutRoutine.__init__(exercises)`. -/
def init (exercises : List ExerciseConfig) : WorkoutRoutine :=
  { queue := exercises, total := exercises.length, completed := 0,
    current := none, done := false }

/-- Source `WorkoutRoutine.advance`: pops the queue head into `current`; marks the
routine done (returning `none`) when the queue is empty. -/
def advance (r : WorkoutRoutine) : Option ExerciseConfig × WorkoutRoutine :=
  match r.queue with
  | [] => (none, { r with done := true, current := none })
  | x :: xs => (some x, { r with current := some x, queue := xs })

/-- Source `WorkoutRoutine.complete_current`. -/
def complete_current (r : WorkoutRoutine) : WorkoutRoutine :=
  { r with completed := r.completed + 1, current := none }

/-- Source `WorkoutRoutine.skip_current`: `if self.current:` is a `None` test, an
`ExerciseConfig` instance is always truthy. -/
def skip_current (r : WorkoutRoutine) : WorkoutRoutine :=
  match r.current with
  | some c => { r with queue := r.queue ++ [c], current := none }
  | none => r

/-- The spec's accounting invariant:
`completedCount + queue.length + (current != null ? 1 : 0) == totalLoaded`. -/
def invariant (r : WorkoutRoutine) : Prop :=
  r.completed + r.queue.length + (if r.current.isSome then 1 else 0) = r.total

instance (r : WorkoutRoutine) : Decidable r.invariant :=
  inferInstanceAs (Decidable (_ = _))

end WorkoutRoutine

/- ------------------------------------------------------------------ -/
/- WorkoutSession, src/pose_tracker.py                                 -/
/- ------------------------------------------------------------------ -/

structure WorkoutSession where
  reps_per_set : ℤ
  rest_seconds : ℚ
  total_sets : ℤ
  current_set : ℤ
  resting : Bool
  rest_start : ℚ
  rest_warned : Bool
  finished : Bool
deriving DecidableEq

namespace WorkoutSession

/-- Source `WorkoutSession.__init__(config)`. -/
def init (config : ExerciseConfig) : WorkoutSession :=
  { reps_per_set := config.reps, rest_seconds := config.rest_seconds,
    total_sets := config.sets, current_set := 0, resting := false,
    rest_start := 0, rest_warned := false, finished := false }

/-- Source `WorkoutSession.start`. -/
def start (s : WorkoutSession) : WorkoutSession :=
  { s with current_set := 1, resting := false, finished := false,
           rest_warned := false }

/-- Source `WorkoutSession.rest_remaining` (wall clock passed explicitly). -/
def rest_remaining (s : WorkoutSession) (now : ℚ) : ℚ :=
  if s.resting then max 0 (s.rest_seconds - (now - s.rest_start)) else 0

/-- Source `WorkoutSession.check_set_complete(trackers)`: `trackers` is reduced to
its per-side rep counts (`t.reps` for each `trackers.values()`). -/
def check_set_complete (s : WorkoutSession) (trackers : List ℕ) : Bool :=
  if s.resting || s.finished then false
  else trackers.any (fun r => s.reps_per_set ≤ (r : ℤ))

/-- Source `WorkoutSession.begin_rest` (wall clock passed explicitly). -/
def begin_rest (s : WorkoutSession) (now : ℚ) : WorkoutSession :=
  { s with resting := true, rest_start := now, rest_warned := false }

/-- Source `WorkoutSession.check_rest_done`. -/
def check_rest_done (s : WorkoutSession) (now : ℚ) : Bool :=
  if !s.resting then false else decide (s.rest_remaining now ≤ 0)

/-- Source `WorkoutSession.advance_set`: returns the Python result and the new
state. -/
def advance_set (s : WorkoutSession) : Bool × WorkoutSession :=
  let s := { s with resting := false, current_set := s.current_set + 1 }
  if s.current_set > s.total_sets then (false, { s with finished := true })
  else (true, s)

/-- Source `WorkoutSession.should_warn_rest_break`: one-shot gate, returns the
Python result and the new state. -/
def should_warn_rest_break (s : WorkoutSession) : Bool × WorkoutSession :=
  if !s.resting || s.rest_warned then (false, s)
  else (true, { s with rest_warned := true })

/-- Source `WorkoutSession.reset_rest_warn`. -/
def reset_rest_warn (s : WorkoutSession) : WorkoutSession :=
  { s with rest_warned := false }

end WorkoutSession

/-- One call to a (state-mutating or read-only) `WorkoutSession` method, for
quantifying over arbitrary call sequences. -/
inductive SessionOp where
  | start : SessionOp
  | checkSetComplete (trackers : List ℕ) : SessionOp
  | beginRest (now : ℚ) : SessionOp
  | checkRestDone (now : ℚ) : SessionOp
  | advanceSet : SessionOp
  | shouldWarnRestBreak : SessionOp
  | resetRestWarn : SessionOp

/-- Effect of one method call on the session state (read-only calls leave
the state unchanged). -/
def sessionApply (s : WorkoutSession) : SessionOp → WorkoutSession
  | .start => s.start
  | .checkSetComplete _ => s
  | .beginRest now => s.begin_rest now
  | .checkRestDone _ => s
  | .advanceSet => (s.advance_set).2
  | .shouldWarnRestBreak => (s.should_warn_rest_break).2
  | .resetRestWarn => s.reset_rest_warn

def sessionRun (s : WorkoutSession) (ops : List SessionOp) : WorkoutSession :=
  ops.foldl sessionApply s

/- ------------------------------------------------------------------ -/
/- Frame-step preservation lemmas                                      -/
/- ------------------------------------------------------------------ -/

@[simp]
theorem curl_accumulate_phase (t : CurlTracker) (e sh : ℚ) (l w f su : Option ℚ) :
    (t.accumulate e sh l w f su).phase = t.phase := rfl

@[simp]
theorem curl_accumulate_reps (t : CurlTracker) (e sh : ℚ) (l w f su : Option ℚ) :
    (t.accumulate e sh l w f su).reps = t.reps := rfl

@[simp]
theorem curl_updateShrugRef_phase (t : CurlTracker) (s : Option ℚ) :
    (t.updateShrugRef s).phase = t.phase := by
  cases s with
  | none => rfl
  | some v => simp only [CurlTracker.updateShrugRef]; split_ifs <;> rfl

@[simp]
theorem curl_updateShrugRef_reps (t : CurlTracker) (s : Option ℚ) :
    (t.updateShrugRef s).reps = t.reps := by
  cases s with
  | none => rfl
  | some v => simp only [CurlTracker.updateShrugRef]; split_ifs <;> rfl

@[simp]
theorem curl_liveChecks_phase (t : CurlTracker) (sh : ℚ) (l f su : Option ℚ) (now : ℚ) :
    (t.liveChecks sh l f su now).phase = t.phase := rfl

@[simp]
theorem curl_liveChecks_reps (t : CurlTracker) (sh : ℚ) (l f su : Option ℚ) (now : ℚ) :
    (t.liveChecks sh l f su now).reps = t.reps := rfl

/-- Inside the hysteresis band neither transition of `CurlTracker.update`
fires. -/
theorem curl_update_band (t : CurlTracker) (e sh : ℚ) (l w se f su : Option ℚ)
    (now : ℚ) (h1 : CurlTracker.CURL_TOP < e) (h2 : e < CurlTracker.CURL_BOTTOM) :
    (t.update e sh l w se f su now).phase = t.phase ∧
    (t.update e sh l w se f su now).reps = t.reps := by
  have h60 : ¬ (e < CurlTracker.CURL_TOP) := not_lt.2 h1.le
  have h140 : ¬ (e > CurlTracker.CURL_BOTTOM) := not_lt.2 h2.le
  simp only [CurlTracker.update]
  rw [if_neg (fun hc => h60 hc.2), if_neg (fun hc => h140 hc.2)]
  simp

@[simp]
theorem raise_accumulate_phase (t : LateralRaiseTracker) (sh e : ℚ) (l : Option ℚ) :
    (t.accumulate sh e l).phase = t.phase := rfl

@[simp]
theorem raise_accumulate_reps (t : LateralRaiseTracker) (sh e : ℚ) (l : Option ℚ) :
    (t.accumulate sh e l).reps = t.reps := rfl

@[simp]
theorem raise_updateShrugRef_phase (t : LateralRaiseTracker) (s : Option ℚ) :
    (t.updateShrugRef s).phase = t.phase := by
  cases s with
  | none => rfl
  | some v => simp only [LateralRaiseTracker.updateShrugRef]; split_ifs <;> rfl

@[simp]
theorem raise_updateShrugRef_reps (t : LateralRaiseTracker) (s : Option ℚ) :
    (t.updateShrugRef s).reps = t.reps := by
  cases s with
  | none => rfl
  | some v => simp only [LateralRaiseTracker.updateShrugRef]; split_ifs <;> rfl

@[simp]
theorem raise_liveChecks_phase (t : LateralRaiseTracker) (sh e : ℚ) (l : Option ℚ) (now : ℚ) :
    (t.liveChecks sh e l now).phase = t.phase := rfl

@[simp]
theorem raise_liveChecks_reps (t : LateralRaiseTracker) (sh e : ℚ) (l : Option ℚ) (now : ℚ) :
    (t.liveChecks sh e l now).reps = t.reps := rfl

/-- Inside the hysteresis band neither transition of
`LateralRaiseTracker.update` fires. -/
theorem raise_update_band (t : LateralRaiseTracker) (sh e : ℚ) (l se : Option ℚ)
    (now : ℚ) (h1 : LateralRaiseTracker.RAISE_BOTTOM < sh)
    (h2 : sh < LateralRaiseTracker.RAISE_TOP) :
    (t.update sh e l se now).phase = t.phase ∧
    (t.update sh e l se now).reps = t.reps := by
  have h70 : ¬ (sh > LateralRaiseTracker.RAISE_TOP) := not_lt.2 h2.le
  have h30 : ¬ (sh < LateralRaiseTracker.RAISE_BOTTOM) := not_lt.2 h1.le
  simp only [LateralRaiseTracker.update]
  rw [if_neg (fun hc => h70 hc.2), if_neg (fun hc => h30 hc.2)]
  simp

/- ------------------------------------------------------------------ -/
/- C2 : hysteresis                                                     -/
/- ------------------------------------------------------------------ -/

/-- C2: while the primary angle stays strictly inside the hysteresis band
(curl: between `CURL_TOP = 60` and `CURL_BOTTOM = 140`; lateral raise:
between `RAISE_BOTTOM = 30` and `RAISE_TOP = 70`), any sequence of update
calls leaves the phase unchanged and never increments the rep count. -/
theorem gym_c2_hysteresis :
    (∀ (t : CurlTracker) (l : List CurlInput),
        (∀ i ∈ l, CurlTracker.CURL_TOP < i.elbow ∧
                  i.elbow < CurlTracker.CURL_BOTTOM) →
        (runCurl t l).phase = t.phase ∧ (runCurl t l).reps = t.reps) ∧
    (∀ (t : LateralRaiseTracker) (l : List RaiseInput),
        (∀ i ∈ l, LateralRaiseTracker.RAISE_BOTTOM < i.shoulder ∧
                  i.shoulder < LateralRaiseTracker.RAISE_TOP) →
        (runRaise t l).phase = t.phase ∧ (runRaise t l).reps = t.reps) := by
  constructor
  · intro t l
    induction l generalizing t with
    | nil => exact fun _ => ⟨rfl, rfl⟩
    | cons i is ih =>
      intro h
      have hi := h i (List.mem_cons_self i is)
      have hstep := curl_update_band t i.elbow i.shoulder i.lean i.wrist i.sh_ear
        i.flare i.sup i.now hi.1 hi.2
      have hrest := ih (curlStep t i) (fun j hj => h j (List.mem_cons_of_mem i hj))
      exact ⟨hrest.1.trans hstep.1, hrest.2.trans hstep.2⟩
  · intro t l
    induction l generalizing t with
    | nil => exact fun _ => ⟨rfl, rfl⟩
    | cons i is ih =>
      intro h
      have hi := h i (List.mem_cons_self i is)
      have hstep := raise_update_band t i.shoulder i.elbow i.lean i.sh_ear i.now
        hi.1 hi.2
      have hrest := ih (raiseStep t i) (fun j hj => h j (List.mem_cons_of_mem i hj))
      exact ⟨hrest.1.trans hstep.1, hrest.2.trans hstep.2⟩

/-- Witness for C2: angles 100° (curl) and 50° (raise) sit strictly inside
each band; one frame each changes neither phase nor reps. -/
theorem gym_c2_hysteresis_witness :
    ((runCurl (CurlTracker.init "L") [⟨100, 0, none, none, none, none, none, 1⟩]).phase
        = (CurlTracker.init "L").phase ∧
     (runCurl (CurlTracker.init "L") [⟨100, 0, none, none, none, none, none, 1⟩]).reps
        = (CurlTracker.init "L").reps) ∧
    ((runRaise (LateralRaiseTracker.init "L") [⟨50, 160, none, none, 1⟩]).phase
        = (LateralRaiseTracker.init "L").phase ∧
     (runRaise (LateralRaiseTracker.init "L") [⟨50, 160, none, none, 1⟩]).reps
        = (LateralRaiseTracker.init "L").reps) :=
  ⟨gym_c2_hysteresis.1 _ _ (by
      intro i hi
      simp only [List.mem_singleton] at hi
      subst hi
      norm_num [CurlTracker.CURL_TOP, CurlTracker.CURL_BOTTOM]),
   gym_c2_hysteresis.2 _ _ (by
      intro i hi
      simp only [List.mem_singleton] at hi
      subst hi
      norm_num [LateralRaiseTracker.RAISE_TOP, LateralRaiseTracker.RAISE_BOTTOM])⟩

/- ------------------------------------------------------------------ -/
/- C10 : the wrist input is dead                                       -/
/- ------------------------------------------------------------------ -/

/-- Forget the one accumulator fed by the wrist input. -/
def eraseW (t : CurlTracker) : CurlTracker := { t with peak_wrist_dev := 0 }

/-- Forget the wrist component of a frame. -/
def eraseWristInput (i : CurlInput) : CurlInput := { i with wrist := none }

theorem curl_shrugRef_pwd (t : CurlTracker) (x : ℚ) (s : Option ℚ) :
    ({ t with peak_wrist_dev := x } : CurlTracker).updateShrugRef s
      = { t.updateShrugRef s with peak_wrist_dev := x } := by
  rcases t with ⟨⟩
  cases s with
  | none => rfl
  | some v =>
    simp only [CurlTracker.updateShrugRef]
    split_ifs <;> rfl

theorem curl_liveChecks_pwd (t : CurlTracker) (x : ℚ) (sh : ℚ)
    (l f su : Option ℚ) (now : ℚ) :
    ({ t with peak_wrist_dev := x } : CurlTracker).liveChecks sh l f su now
      = { t.liveChecks sh l f su now with peak_wrist_dev := x } := rfl

theorem curl_finishRep_pwd (t : CurlTracker) (x : ℚ) (now ecc : ℚ) :
    ({ t with peak_wrist_dev := x } : CurlTracker).finishRep now ecc
      = t.finishRep now ecc := rfl

/-- One frame: starting states equal up to the wrist accumulator and frames
equal up to the wrist input yield results equal up to the wrist
accumulator. -/
theorem curl_step_wrist (t : CurlTracker) (x : ℚ) (i : CurlInput) :
    eraseW (curlStep { t with peak_wrist_dev := x } i)
      = eraseW (curlStep t (eraseWristInput i)) := by
  rcases i with ⟨e, sh, l, w, se, f, su, now⟩
  simp only [curlStep, eraseWristInput, CurlTracker.update]
  have hacc : ({ t with peak_wrist_dev := x } : CurlTracker).accumulate e sh l w f su
      = { t.accumulate e sh l none f su with
            peak_wrist_dev :=
              match w with
              | some v => max x |180 - v|
              | none => x } := by
    cases w <;> rfl
  rw [hacc, curl_shrugRef_pwd, curl_liveChecks_pwd]
  by_cases hc1 :
      (((t.accumulate e sh l none f su).updateShrugRef se).liveChecks sh l f su now).phase
          = CurlTracker.PHASE_DOWN ∧ e < CurlTracker.CURL_TOP
  · rw [if_pos hc1, if_pos hc1]
    rfl
  · rw [if_neg hc1, if_neg hc1]
    by_cases hc2 :
        (((t.accumulate e sh l none f su).updateShrugRef se).liveChecks sh l f su now).phase
            = CurlTracker.PHASE_UP ∧ e > CurlTracker.CURL_BOTTOM
    · rw [if_pos hc2, if_pos hc2, curl_finishRep_pwd]
    · rw [if_neg hc2, if_neg hc2]
      rfl

/-- States related up to the wrist accumulator differ only in that field. -/
theorem curl_eraseW_eq (s1 s2 : CurlTracker) (h : eraseW s1 = eraseW s2) :
    s1 = { s2 with peak_wrist_dev := s1.peak_wrist_dev } := by
  rcases s1 with ⟨⟩
  rcases s2 with ⟨⟩
  simp only [eraseW, CurlTracker.mk.injEq] at h ⊢
  simp_all

theorem curl_run_wrist (l1 : List CurlInput) :
    ∀ (l2 : List CurlInput) (s1 s2 : CurlTracker),
      eraseW s1 = eraseW s2 → l1.map eraseWristInput = l2.map eraseWristInput →
      eraseW (runCurl s1 l1) = eraseW (runCurl s2 l2) := by
  induction l1 with
  | nil =>
    intro l2 s1 s2 hs hl
    have : l2 = [] := by
      cases l2 with
      | nil => rfl
      | cons a as => simp at hl
    subst this
    exact hs
  | cons i1 is1 ih =>
    intro l2 s1 s2 hs hl
    cases l2 with
    | nil => simp at hl
    | cons i2 is2 =>
      simp only [List.map_cons, List.cons.injEq] at hl
      have hstep : eraseW (curlStep s1 i1) = eraseW (curlStep s2 i2) := by
        rw [curl_eraseW_eq s1 s2 hs]
        calc eraseW (curlStep { s2 with peak_wrist_dev := s1.peak_wrist_dev } i1)
            = eraseW (curlStep s2 (eraseWristInput i1)) :=
              curl_step_wrist s2 s1.peak_wrist_dev i1
          _ = eraseW (curlStep s2 (eraseWristInput i2)) := by rw [hl.1]
          _ = eraseW (curlStep { s2 with peak_wrist_dev := s2.peak_wrist_dev } i2) :=
              (curl_step_wrist s2 s2.peak_wrist_dev i2).symm
          _ = eraseW (curlStep s2 i2) := rfl
      exact ih is2 (curlStep s1 i1) (curlStep s2 i2) hstep hl.2

/-- C10: the wrist input never influences any observable output of
`CurlTracker`: two update sequences identical except for their
`wrist_angle` values (including `None` vs non-`None`) leave the tracker
with the same phase, rep count, scores, feedback, speech queue and live
trigger map — only the dead `_peak_wrist_dev` accumulator can differ, and
`W_WRIST` is never subtracted. -/
theorem gym_c10_wrist_noninterference (side : String) (l1 l2 : List CurlInput)
    (h : l1.map eraseWristInput = l2.map eraseWristInput) :
    (runCurl (CurlTracker.init side) l1).phase
        = (runCurl (CurlTracker.init side) l2).phase ∧
    (runCurl (CurlTracker.init side) l1).reps
        = (runCurl (CurlTracker.init side) l2).reps ∧
    (runCurl (CurlTracker.init side) l1).last_score
        = (runCurl (CurlTracker.init side) l2).last_score ∧
    (runCurl (CurlTracker.init side) l1).rep_scores
        = (runCurl (CurlTracker.init side) l2).rep_scores ∧
    (runCurl (CurlTracker.init side) l1).active_feedback
        = (runCurl (CurlTracker.init side) l2).active_feedback ∧
    (runCurl (CurlTracker.init side) l1).speech_queue
        = (runCurl (CurlTracker.init side) l2).speech_queue ∧
    (runCurl (CurlTracker.init side) l1).live_triggers
        = (runCurl (CurlTracker.init side) l2).live_triggers ∧
    (runCurl (CurlTracker.init side) l1).injury_warning
        = (runCurl (CurlTracker.init side) l2).injury_warning := by
  have hrun := curl_run_wrist l1 l2 (CurlTracker.init side) (CurlTracker.init side)
    rfl h
  exact ⟨congrArg (fun s => s.phase) hrun, congrArg (fun s => s.reps) hrun,
    congrArg (fun s => s.last_score) hrun, congrArg (fun s => s.rep_scores) hrun,
    congrArg (fun s => s.active_feedback) hrun,
    congrArg (fun s => s.speech_queue) hrun,
    congrArg (fun s => s.live_triggers) hrun,
    congrArg (fun s => s.injury_warning) hrun⟩

/-- Witness for C10: a frame carrying a wildly bent wrist (wrist angle 90°,
deviation 90°) versus one with no wrist data at all. -/
theorem gym_c10_wrist_noninterference_witness :
    (runCurl (CurlTracker.init "L") [⟨100, 0, none, some 90, none, none, none, 1⟩]).reps
        = (runCurl (CurlTracker.init "L") [⟨100, 0, none, none, none, none, none, 1⟩]).reps ∧
    (runCurl (CurlTracker.init "L") [⟨100, 0, none, some 90, none, none, none, 1⟩]).last_score
        = (runCurl (CurlTracker.init "L") [⟨100, 0, none, none, none, none, none, 1⟩]).last_score :=
  ⟨(gym_c10_wrist_noninterference "L" _ _ rfl).2.1,
   (gym_c10_wrist_noninterference "L" _ _ rfl).2.2.1⟩

/- ------------------------------------------------------------------ -/
/- Concrete end-to-end runs (C1, C4)                                   -/
/- ------------------------------------------------------------------ -/

attribute [simp] CurlTracker.PHASE_DOWN CurlTracker.PHASE_UP
  CurlTracker.CURL_TOP CurlTracker.CURL_BOTTOM CurlTracker.SWING_OK
  CurlTracker.SWING_WARN CurlTracker.SWING_BAD CurlTracker.LEAN_OK
  CurlTracker.LEAN_WARN CurlTracker.LEAN_BAD CurlTracker.ROM_TOP_GOOD
  CurlTracker.ROM_TOP_OK CurlTracker.ROM_BOTTOM_GOOD CurlTracker.ROM_BOTTOM_OK
  CurlTracker.FLARE_OK CurlTracker.FLARE_WARN CurlTracker.SUP_GOOD
  CurlTracker.SUP_NEUTRAL CurlTracker.CON_MIN CurlTracker.CON_MAX
  CurlTracker.ECC_MIN CurlTracker.ECC_MAX CurlTracker.W_ELBOW_PIN
  CurlTracker.W_LEAN CurlTracker.W_ROM_TOP CurlTracker.W_ROM_BOTTOM
  CurlTracker.W_SHRUG CurlTracker.W_FLARE CurlTracker.W_SUPINATION
  CurlTracker.W_TEMPO_CON CurlTracker.W_TEMPO_ECC

/-- C4 frames: elbow angles 170, 55, 170 at t = 0, 1, 2, shoulder swing 10,
all optional signals absent. -/
def c4i1 : CurlInput := ⟨170, 10, none, none, none, none, none, 0⟩
def c4i2 : CurlInput := ⟨55, 10, none, none, none, none, none, 1⟩
def c4i3 : CurlInput := ⟨170, 10, none, none, none, none, none, 2⟩

def c4s1 : CurlTracker :=
  { CurlTracker.init "L" with
      cur_elbow := 170
      min_elbow := 170
      max_elbow := 170
      peak_swing := 10 }

def c4s2 : CurlTracker :=
  { c4s1 with
      cur_elbow := 55
      min_elbow := 55
      phase := "up"
      phase_start := 1 }

def c4s3 : CurlTracker :=
  { CurlTracker.init "L" with
      cur_elbow := 170
      reps := 1
      phase := "down"
      phase_start := 2
      last_score := 95
      rep_scores := [95]
      active_feedback := [("Almost full contraction - try to squeeze more", SEV_INFO)]
      feedback_expiry := 7
      speech_queue := ["Good job!"] }

set_option maxHeartbeats 1000000 in
theorem c4_step1 : curlStep (CurlTracker.init "L") c4i1 = c4s1 := by
  norm_num +decide [c4i1, curlStep, CurlTracker.update, CurlTracker.accumulate,
    CurlTracker.updateShrugRef, CurlTracker.liveChecks, CurlTracker.init, c4s1]

set_option maxHeartbeats 1000000 in
theorem c4_step2 : curlStep c4s1 c4i2 = c4s2 := by
  norm_num +decide [c4i2, curlStep, CurlTracker.update, CurlTracker.accumulate,
    CurlTracker.updateShrugRef, CurlTracker.liveChecks, CurlTracker.init,
    c4s1, c4s2]

set_option maxHeartbeats 1000000 in
theorem c4_step3 : curlStep c4s2 c4i3 = c4s3 := by
  norm_num +decide [c4i3, curlStep, CurlTracker.update, CurlTracker.accumulate,
    CurlTracker.updateShrugRef, CurlTracker.liveChecks, CurlTracker.finishRep,
    CurlTracker.repChecks, CurlTracker.init, c4s1, c4s2, c4s3, sortIssues,
    build_speech_queue, SEV_GOOD, SEV_INFO, SEV_WARN, SEV_BAD, sevPriority,
    issueLe, List.insertionSort, List.orderedInsert]

theorem c4_run : runCurl (CurlTracker.init "L") [c4i1, c4i2, c4i3] = c4s3 := by
  simp only [runCurl, List.foldl_cons, List.foldl_nil, c4_step1, c4_step2, c4_step3]

/-- C4 counterexample: the claimed score of 90 is wrong.  On the frames
170, 55, 170 the accumulated maximum elbow angle is 170 (at or above
`ROM_BOTTOM_GOOD = 155`), so the ROM-bottom check passes and no second
half-weight deduction is taken: the rep is scored 95, not 90. -/
theorem gym_c4_counterexample :
    (runCurl (CurlTracker.init "L") [c4i1, c4i2, c4i3]).reps = 1 ∧
    (runCurl (CurlTracker.init "L") [c4i1, c4i2, c4i3]).last_score ≠ 90 := by
  rw [c4_run]
  exact ⟨rfl, by decide⟩

/-- C4 (amended): the three frames yield exactly one completed rep scored
`100 - W_ROM_TOP / 2 = 95`: only the half-weight ROM-top deduction applies
(min angle 55 lies between `ROM_TOP_GOOD = 50` and `ROM_TOP_OK = 70`); the
accumulated max angle is 170 ≥ `ROM_BOTTOM_GOOD`, so there is no ROM-bottom
deduction, and no other check fires. -/
theorem gym_c4_one_rep_score :
    (runCurl (CurlTracker.init "L") [c4i1, c4i2, c4i3]).reps = 1 ∧
    (runCurl (CurlTracker.init "L") [c4i1, c4i2, c4i3]).last_score
        = 100 - ((CurlTracker.W_ROM_TOP / 2 : ℕ) : ℤ) ∧
    (runCurl (CurlTracker.init "L") [c4i1, c4i2, c4i3]).last_score = 95 := by
  rw [c4_run]
  refine ⟨rfl, by decide, rfl⟩

/- -------------------------- C1 run ------------------------------- -/

/-- C1 frames: each rep curls to 55° with heavy swing (50°), heavy lean
(30°), flared elbow (distance 1) and a pronated grip (supination 0), which
costs 60 points and scores the rep exactly 40 = `INJURY_BAD_SCORE`. -/
def c1iUp (now : ℚ) : CurlInput := ⟨55, 50, some 30, none, none, some 1, some 0, now⟩
def c1iDown (now : ℚ) : CurlInput := ⟨170, 50, some 30, none, none, some 1, some 0, now⟩

def c1inputs : List CurlInput :=
  [c1iUp 1, c1iDown 3, c1iUp 5, c1iDown 7, c1iUp 9, c1iDown 11]

def c1Live (now : ℚ) : LiveTriggers :=
  [("Pin elbow to side!", "bad", now), ("Stop leaning back!", "bad", now),
   ("Tuck elbow in!", "warn", now), ("Supinate - rotate palm up!", "warn", now)]

def c1Feedback : List Issue :=
  [("Elbow swinging a lot - pin it to your side", "bad"),
   ("Too much body lean - you\x27re using momentum", "bad"),
   ("Elbow flaring out - keep it tucked in", "warn"),
   ("Rotate palm up - supinate your grip", "warn"),
   ("Almost full contraction - try to squeeze more", "info")]

def c1Speech : List String :=
  ["Elbow swinging a lot - pin it to your side",
   "Too much body lean - you\x27re using momentum",
   "Elbow flaring out - keep it tucked in",
   "Rotate palm up - supinate your grip"]

def c1r1 : CurlTracker :=
  { CurlTracker.init "L" with
      cur_elbow := 55
      min_elbow := 55
      max_elbow := 55
      peak_swing := 50
      peak_lean := 30
      peak_flare := 1
      min_supination := 0
      live_triggers := c1Live 1
      phase := "up"
      con_time := 0
      phase_start := 1 }

def c1r2 : CurlTracker :=
  { CurlTracker.init "L" with
      cur_elbow := 170
      reps := 1
      phase := "down"
      phase_start := 3
      last_score := 40
      rep_scores := [40]
      active_feedback := c1Feedback
      feedback_expiry := 8
      speech_queue := c1Speech
      live_triggers := c1Live 3 }

def c1r3 : CurlTracker :=
  { c1r2 with
      cur_elbow := 55
      min_elbow := 55
      max_elbow := 55
      peak_swing := 50
      peak_lean := 30
      peak_flare := 1
      min_supination := 0
      live_triggers := c1Live 5
      phase := "up"
      con_time := 2
      phase_start := 5 }

def c1r4 : CurlTracker :=
  { c1r2 with
      reps := 2
      rep_scores := [40, 40]
      phase_start := 7
      feedback_expiry := 12
      live_triggers := c1Live 7 }

def c1r5 : CurlTracker :=
  { c1r4 with
      cur_elbow := 55
      min_elbow := 55
      max_elbow := 55
      peak_swing := 50
      peak_lean := 30
      peak_flare := 1
      min_supination := 0
      live_triggers := c1Live 9
      phase := "up"
      con_time := 2
      phase_start := 9 }

def c1r6 : CurlTracker :=
  { c1r4 with
      reps := 3
      rep_scores := [40, 40, 40]
      phase_start := 11
      feedback_expiry := 16
      live_triggers := c1Live 11 }

set_option maxHeartbeats 1600000 in
theorem c1_step1 : curlStep (CurlTracker.init "L") (c1iUp 1) = c1r1 := by
  norm_num +decide [c1iUp, curlStep, CurlTracker.update, CurlTracker.accumulate,
    CurlTracker.updateShrugRef, CurlTracker.liveChecks, CurlTracker.init,
    c1r1, c1Live, trigger, SEV_BAD, SEV_WARN]

set_option maxHeartbeats 1600000 in
theorem c1_step2 : curlStep c1r1 (c1iDown 3) = c1r2 := by
  norm_num +decide [c1iDown, curlStep, CurlTracker.update, CurlTracker.accumulate,
    CurlTracker.updateShrugRef, CurlTracker.liveChecks, CurlTracker.finishRep,
    CurlTracker.repChecks, CurlTracker.init, c1r1, c1r2, c1Live, c1Feedback,
    c1Speech, trigger, sortIssues, build_speech_queue, SEV_GOOD, SEV_INFO,
    SEV_WARN, SEV_BAD, sevPriority, issueLe, List.insertionSort,
    List.orderedInsert]

set_option maxHeartbeats 1600000 in
theorem c1_step3 : curlStep c1r2 (c1iUp 5) = c1r3 := by
  norm_num +decide [c1iUp, curlStep, CurlTracker.update, CurlTracker.accumulate,
    CurlTracker.updateShrugRef, CurlTracker.liveChecks, CurlTracker.init,
    c1r2, c1r3, c1Live, c1Feedback, c1Speech, trigger, SEV_BAD, SEV_WARN]

set_option maxHeartbeats 1600000 in
theorem c1_step4 : curlStep c1r3 (c1iDown 7) = c1r4 := by
  norm_num +decide [c1iDown, curlStep, CurlTracker.update, CurlTracker.accumulate,
    CurlTracker.updateShrugRef, CurlTracker.liveChecks, CurlTracker.finishRep,
    CurlTracker.repChecks, CurlTracker.init, c1r2, c1r3, c1r4, c1Live,
    c1Feedback, c1Speech, trigger, sortIssues, build_speech_queue, SEV_GOOD,
    SEV_INFO, SEV_WARN, SEV_BAD, sevPriority, issueLe, List.insertionSort,
    List.orderedInsert]

set_option maxHeartbeats 1600000 in
theorem c1_step5 : curlStep c1r4 (c1iUp 9) = c1r5 := by
  norm_num +decide [c1iUp, curlStep, CurlTracker.update, CurlTracker.accumulate,
    CurlTracker.updateShrugRef, CurlTracker.liveChecks, CurlTracker.init,
    c1r2, c1r4, c1r5, c1Live, c1Feedback, c1Speech, trigger, SEV_BAD, SEV_WARN]

set_option maxHeartbeats 1600000 in
theorem c1_step6 : curlStep c1r5 (c1iDown 11) = c1r6 := by
  norm_num +decide [c1iDown, curlStep, CurlTracker.update, CurlTracker.accumulate,
    CurlTracker.updateShrugRef, CurlTracker.liveChecks, CurlTracker.finishRep,
    CurlTracker.repChecks, CurlTracker.init, c1r2, c1r4, c1r5, c1r6, c1Live,
    c1Feedback, c1Speech, trigger, sortIssues, build_speech_queue, SEV_GOOD,
    SEV_INFO, SEV_WARN, SEV_BAD, sevPriority, issueLe, List.insertionSort,
    List.orderedInsert]

theorem c1_run : runCurl (CurlTracker.init "L") c1inputs = c1r6 := by
  simp only [c1inputs, runCurl, List.foldl_cons, List.foldl_nil,
    c1_step1, c1_step2, c1_step3, c1_step4, c1_step5, c1_step6]

/-- C1 (the code contradicts the claim): `_finish_rep` never invokes
`_check_injury_risk`, so neither the streak counter nor `injury_warning`
ever changes — after three consecutive completed reps each scored exactly
`INJURY_BAD_SCORE = 40` the flag is still false and the counter still 0,
although applying the (dead) `_check_injury_risk` once per such rep, as its
own docstring instructs, would raise the flag on the third. -/
theorem gym_c1_injury_monitor_dead :
    (∀ (t : CurlTracker) (now ecc : ℚ),
        (t.finishRep now ecc).injury_warning = t.injury_warning ∧
        (t.finishRep now ecc).consecutive_bad = t.consecutive_bad) ∧
    ((runCurl (CurlTracker.init "L") c1inputs).rep_scores = [40, 40, 40] ∧
     (40 : ℤ) ≤ INJURY_BAD_SCORE ∧
     (runCurl (CurlTracker.init "L") c1inputs).injury_warning = false ∧
     (runCurl (CurlTracker.init "L") c1inputs).consecutive_bad = 0) ∧
    (((runCurl (CurlTracker.init "L")
          c1inputs).check_injury_risk.check_injury_risk.check_injury_risk).injury_warning
        = true) := by
  refine ⟨fun t now ecc => ⟨rfl, rfl⟩, ?_, ?_⟩
  · rw [c1_run]
    exact ⟨rfl, by decide, rfl, rfl⟩
  · rw [c1_run]
    decide

/- ------------------------------------------------------------------ -/
/- Concrete configurations used by witnesses and counterexamples       -/
/- ------------------------------------------------------------------ -/

def cfgA : ExerciseConfig := ⟨"bicep_curl", 3, 8, 60⟩
def cfgB : ExerciseConfig := ⟨"lateral_raise", 3, 10, 45⟩
def cfgC : ExerciseConfig := ⟨"bicep_curl", 2, 12, 30⟩
def cfgOneSet : ExerciseConfig := ⟨"bicep_curl", 1, 8, 60⟩

/- ------------------------------------------------------------------ -/
/- C3 : score bounds and feedback ordering                             -/
/- ------------------------------------------------------------------ -/

set_option maxHeartbeats 1600000 in
/-- Unfolding of the scoring fields of `CurlTracker.finishRep`. -/
theorem curl_finishRep_fields (t : CurlTracker) (now ecc : ℚ) :
    (t.finishRep now ecc).last_score
        = max (100 - (((t.repChecks ecc).map Prod.snd).sum : ℤ)) 0 ∧
    (t.finishRep now ecc).rep_scores
        = t.rep_scores ++ [(t.finishRep now ecc).last_score] ∧
    (t.finishRep now ecc).active_feedback
        = (if sortIssues ((t.repChecks ecc).map Prod.fst) = []
           then [("Perfect rep!", SEV_GOOD)]
           else sortIssues ((t.repChecks ecc).map Prod.fst)) :=
  ⟨rfl, rfl, rfl⟩

set_option maxHeartbeats 1600000 in
/-- Unfolding of the scoring fields of `LateralRaiseTracker.finishRep`. -/
theorem raise_finishRep_fields (t : LateralRaiseTracker) (now dt : ℚ) :
    (t.finishRep now dt).last_score
        = max (100 - (((t.repChecks dt).map Prod.snd).sum : ℤ)) 0 ∧
    (t.finishRep now dt).rep_scores
        = t.rep_scores ++ [(t.finishRep now dt).last_score] ∧
    (t.finishRep now dt).active_feedback
        = (if sortIssues ((t.repChecks dt).map Prod.fst) = []
           then [("Perfect rep!", SEV_GOOD)]
           else sortIssues ((t.repChecks dt).map Prod.fst)) :=
  ⟨rfl, rfl, rfl⟩

/-- The sorted issue list is sorted, and empty iff its input is. -/
theorem sortIssues_sorted (l : List Issue) : (sortIssues l).Sorted issueLe :=
  List.sorted_insertionSort issueLe l

theorem sortIssues_nil : sortIssues [] = [] := rfl

/-- C3: every completed rep of either tracker stores a score with
`0 ≤ score ≤ 100` (also appended to `rep_scores`), publishes feedback
sorted ascending by severity priority, and publishes exactly
`[("Perfect rep!", good)]` when no check failed. -/
theorem gym_c3_score_bounds_and_sorted_feedback :
    (∀ (t : CurlTracker) (now ecc : ℚ),
        0 ≤ (t.finishRep now ecc).last_score ∧
        (t.finishRep now ecc).last_score ≤ 100 ∧
        (t.finishRep now ecc).rep_scores
          = t.rep_scores ++ [(t.finishRep now ecc).last_score] ∧
        (t.finishRep now ecc).active_feedback.Sorted issueLe ∧
        (t.repChecks ecc = [] →
          (t.finishRep now ecc).active_feedback = [("Perfect rep!", SEV_GOOD)])) ∧
    (∀ (t : LateralRaiseTracker) (now dt : ℚ),
        0 ≤ (t.finishRep now dt).last_score ∧
        (t.finishRep now dt).last_score ≤ 100 ∧
        (t.finishRep now dt).rep_scores
          = t.rep_scores ++ [(t.finishRep now dt).last_score] ∧
        (t.finishRep now dt).active_feedback.Sorted issueLe ∧
        (t.repChecks dt = [] →
          (t.finishRep now dt).active_feedback = [("Perfect rep!", SEV_GOOD)])) := by
  constructor
  · intro t now ecc
    obtain ⟨hscore, hsc, hfb⟩ := curl_finishRep_fields t now ecc
    refine ⟨?_, ?_, hsc, ?_, ?_⟩
    · rw [hscore]; exact le_max_right _ _
    · rw [hscore]
      exact max_le (sub_le_self _ (Int.natCast_nonneg _)) (by norm_num)
    · rw [hfb]
      split_ifs with h
      · exact List.sorted_singleton _
      · exact sortIssues_sorted _
    · intro hchecks
      rw [hfb, hchecks]
      simp [sortIssues_nil]
  · intro t now dt
    obtain ⟨hscore, hsc, hfb⟩ := raise_finishRep_fields t now dt
    refine ⟨?_, ?_, hsc, ?_, ?_⟩
    · rw [hscore]; exact le_max_right _ _
    · rw [hscore]
      exact max_le (sub_le_self _ (Int.natCast_nonneg _)) (by norm_num)
    · rw [hfb]
      split_ifs with h
      · exact List.sorted_singleton _
      · exact sortIssues_sorted _
    · intro hchecks
      rw [hfb, hchecks]
      simp [sortIssues_nil]

/-- A curl accumulator state on which every form check passes. -/
def tCurlPerfect : CurlTracker :=
  { CurlTracker.init "L" with min_elbow := 40, max_elbow := 170 }

/-- A lateral-raise accumulator state on which every form check passes. -/
def tRaisePerfect : LateralRaiseTracker :=
  { LateralRaiseTracker.init "L" with peak_shoulder_angle := 90,
                                      min_elbow_angle := 160 }

/-- Witness for C3: on flawless accumulated metrics (half-phase durations in
range) both trackers publish exactly the perfect-rep feedback. -/
theorem gym_c3_score_bounds_and_sorted_feedback_witness :
    (tCurlPerfect.finishRep 10 2).active_feedback = [("Perfect rep!", SEV_GOOD)] ∧
    (tRaisePerfect.finishRep 10 2).active_feedback = [("Perfect rep!", SEV_GOOD)] :=
  ⟨(gym_c3_score_bounds_and_sorted_feedback.1 tCurlPerfect 10 2).2.2.2.2 (by
      norm_num [tCurlPerfect, CurlTracker.repChecks, CurlTracker.init,
        CurlTracker.SWING_OK, CurlTracker.SWING_WARN, CurlTracker.SWING_BAD,
        CurlTracker.LEAN_OK, CurlTracker.LEAN_WARN, CurlTracker.LEAN_BAD,
        CurlTracker.ROM_TOP_GOOD, CurlTracker.ROM_TOP_OK,
        CurlTracker.ROM_BOTTOM_GOOD, CurlTracker.ROM_BOTTOM_OK,
        CurlTracker.FLARE_OK, CurlTracker.FLARE_WARN,
        CurlTracker.SUP_GOOD, CurlTracker.SUP_NEUTRAL,
        CurlTracker.CON_MIN, CurlTracker.CON_MAX,
        CurlTracker.ECC_MIN, CurlTracker.ECC_MAX]),
   (gym_c3_score_bounds_and_sorted_feedback.2 tRaisePerfect 10 2).2.2.2.2 (by
      norm_num [tRaisePerfect, LateralRaiseTracker.repChecks,
        LateralRaiseTracker.init, LateralRaiseTracker.HEIGHT_GOOD,
        LateralRaiseTracker.HEIGHT_OK, LateralRaiseTracker.OVER_RAISE,
        LateralRaiseTracker.ELBOW_TOO_BENT, LateralRaiseTracker.ELBOW_SLIGHTLY_BENT,
        LateralRaiseTracker.ELBOW_TOO_STRAIGHT, LateralRaiseTracker.LEAN_OK,
        LateralRaiseTracker.LEAN_WARN, LateralRaiseTracker.LEAN_BAD,
        LateralRaiseTracker.UP_MIN, LateralRaiseTracker.UP_MAX,
        LateralRaiseTracker.DOWN_MIN, LateralRaiseTracker.DOWN_MAX])⟩

/- ------------------------------------------------------------------ -/
/- C5 : live-alert trigger map and lazy eviction                       -/
/- ------------------------------------------------------------------ -/

/-- C5: an entry `(msg, sev, t)` of a trigger map with unique keys is
reported by `get_live_alerts(now)` iff `now - t ≤ LIVE_GRACE`; the read
leaves behind exactly the unexpired entries (lazy eviction, only on read);
and `_trigger` overwrites an existing message in place (same key set, keys
still unique) while a fresh message is appended. -/
theorem gym_c5_live_alert_debounce :
    (∀ (m : LiveTriggers) (msg sev : String) (tt now : ℚ),
        (msg, sev, tt) ∈ m → (m.map Prod.fst).Nodup →
        ((msg, sev) ∈ (get_live_alerts m now).1 ↔ now - tt ≤ LIVE_GRACE)) ∧
    (∀ (m : LiveTriggers) (now : ℚ) (e : String × String × ℚ),
        e ∈ (get_live_alerts m now).2 ↔ (e ∈ m ∧ now - e.2.2 ≤ LIVE_GRACE)) ∧
    (∀ (m : LiveTriggers) (msg sev : String) (now : ℚ),
        (m.map Prod.fst).Nodup →
        ((msg, sev, now) ∈ trigger m msg sev now ∧
         ((trigger m msg sev now).map Prod.fst).Nodup ∧
         (trigger m msg sev now).map Prod.fst
           = (if msg ∈ m.map Prod.fst then m.map Prod.fst
              else m.map Prod.fst ++ [msg]))) := by
  refine ⟨?_, ?_, ?_⟩
  · intro m msg sev tt now hmem hnd
    simp only [get_live_alerts, liveActive]
    constructor
    · intro hin
      rcases List.mem_filterMap.1 hin with ⟨a, ha, heq⟩
      by_cases hc : now - a.2.2 ≤ LIVE_GRACE
      · rw [if_pos hc] at heq
        have hkey : a.1 = msg := congrArg Prod.fst (Option.some.inj heq)
        have haeq : a = (msg, sev, tt) :=
          List.inj_on_of_nodup_map hnd ha hmem hkey
        rw [haeq] at hc
        exact hc
      · rw [if_neg hc] at heq
        cases heq
    · intro hle
      exact List.mem_filterMap.2 ⟨(msg, sev, tt), hmem, by rw [if_pos hle]⟩
  · intro m now e
    simp [get_live_alerts, liveAfterRead, List.mem_filter]
  · intro m msg sev now hnd
    by_cases hany : m.any (fun e => e.1 = msg) = true
    · have hin : msg ∈ m.map Prod.fst := by
        rcases List.any_eq_true.1 hany with ⟨e, he, hkey⟩
        simp only [decide_eq_true_eq] at hkey
        exact hkey ▸ List.mem_map_of_mem Prod.fst he
      have hmapkeys :
          (m.map (fun e => if e.1 = msg then (msg, sev, now) else e)).map Prod.fst
            = m.map Prod.fst := by
        rw [List.map_map]
        refine List.map_congr_left ?_
        intro e _
        by_cases hk : e.1 = msg
        · simp [hk]
        · simp [hk]
      refine ⟨?_, ?_, ?_⟩
      · unfold trigger
        rw [if_pos hany]
        rcases List.any_eq_true.1 hany with ⟨e, he, hkey⟩
        simp only [decide_eq_true_eq] at hkey
        exact List.mem_map.2 ⟨e, he, by rw [if_pos hkey]⟩
      · unfold trigger
        rw [if_pos hany, hmapkeys]
        exact hnd
      · unfold trigger
        rw [if_pos hany, if_pos hin, hmapkeys]
    · have hnotin : msg ∉ m.map Prod.fst := by
        intro hmm
        rcases List.mem_map.1 hmm with ⟨e, he, hkey⟩
        exact hany (List.any_eq_true.2 ⟨e, he, by simp [hkey]⟩)
      refine ⟨?_, ?_, ?_⟩
      · unfold trigger
        rw [if_neg hany]
        exact List.mem_append_right _ (List.mem_singleton_self _)
      · unfold trigger
        rw [if_neg hany, List.map_append]
        simp only [List.map_cons, List.map_nil]
        exact List.Nodup.append hnd (List.nodup_singleton _)
          (by simpa [List.disjoint_right] using hnotin)
      · unfold trigger
        rw [if_neg hany, if_neg hnotin, List.map_append]
        rfl

/-- Witness for C5: a map holding one alert triggered at t=1 still reports
it at t=1.3 (grace 0.35), and triggering into an empty map stores the
entry. -/
theorem gym_c5_live_alert_debounce_witness :
    ((("Pin elbow to side!", "bad") ∈
        (get_live_alerts [("Pin elbow to side!", "bad", (1 : ℚ))] (13/10)).1) ↔
      (13/10 : ℚ) - 1 ≤ LIVE_GRACE) ∧
    (("Pin elbow to side!", "bad", (1 : ℚ)) ∈ trigger [] "Pin elbow to side!" "bad" 1) :=
  ⟨gym_c5_live_alert_debounce.1 _ "Pin elbow to side!" "bad" 1 (13/10)
      (List.mem_singleton.mpr rfl) (by simp),
   (gym_c5_live_alert_debounce.2.2 [] "Pin elbow to side!" "bad" 1 (by simp)).1⟩

/- ------------------------------------------------------------------ -/
/- C6 : set completion is an OR across sides                           -/
/- ------------------------------------------------------------------ -/

/-- C6: `WorkoutSession.check_set_complete(trackers)` returns true iff the
session is neither resting nor finished and at least one tracker's rep count
has reached `reps_per_set` (a disjunction across sides). -/
theorem gym_c6_check_set_complete_iff (s : WorkoutSession) (trackers : List ℕ) :
    s.check_set_complete trackers = true ↔
      (s.resting = false ∧ s.finished = false ∧
        ∃ r ∈ trackers, s.reps_per_set ≤ (r : ℤ)) := by
  rcases hr : s.resting <;> rcases hf : s.finished <;>
    simp [WorkoutSession.check_set_complete, hr, hf, List.any_eq_true]

/- ------------------------------------------------------------------ -/
/- C7 : routine skip-to-back and advance-pops-head                     -/
/- ------------------------------------------------------------------ -/

/-- C7: on a routine whose remaining exercises are A (current), then B, C,
`skip_current` followed by `advance` returns B, makes B current and leaves
the queue `[C, A]`; in general `skip_current` appends the current entry to
the back of the queue (never dropping it), and `advance` pops the queue
head, returning `none` and marking the routine done only on an empty
queue. -/
theorem gym_c7_skip_then_advance :
    (∀ (r : WorkoutRoutine) (a b c : ExerciseConfig),
        r.current = some a → r.queue = [b, c] →
        ((r.skip_current).advance.1 = some b ∧
         (r.skip_current).advance.2.current = some b ∧
         (r.skip_current).advance.2.queue = [c, a])) ∧
    (∀ (r : WorkoutRoutine) (c : ExerciseConfig), r.current = some c →
        (r.skip_current).queue = r.queue ++ [c] ∧
        (r.skip_current).current = none) ∧
    (∀ (r : WorkoutRoutine) (x : ExerciseConfig) (xs : List ExerciseConfig),
        r.queue = x :: xs →
        (r.advance.1 = some x ∧ r.advance.2.current = some x ∧
         r.advance.2.queue = xs ∧ r.advance.2.done = r.done)) ∧
    (∀ r : WorkoutRoutine, r.queue = [] →
        (r.advance.1 = none ∧ r.advance.2.done = true ∧
         r.advance.2.current = none)) := by
  refine ⟨?_, ?_, ?_, ?_⟩
  · intro r a b c hcur hq
    simp [WorkoutRoutine.skip_current, WorkoutRoutine.advance, hcur, hq]
  · intro r c hcur
    simp [WorkoutRoutine.skip_current, hcur]
  · intro r x xs hq
    simp [WorkoutRoutine.advance, hq]
  · intro r hq
    simp [WorkoutRoutine.advance, hq]

/-- Witness for C7 at the concrete routine current=A, queue=[B, C]. -/
theorem gym_c7_skip_then_advance_witness :
    (({ queue := [cfgB, cfgC], total := 3, completed := 0,
        current := some cfgA, done := false } : WorkoutRoutine).skip_current.advance.1
          = some cfgB ∧
     ({ queue := [cfgB, cfgC], total := 3, completed := 0,
        current := some cfgA, done := false } : WorkoutRoutine).skip_current.advance.2.current
          = some cfgB ∧
     ({ queue := [cfgB, cfgC], total := 3, completed := 0,
        current := some cfgA, done := false } : WorkoutRoutine).skip_current.advance.2.queue
          = [cfgC, cfgA]) :=
  gym_c7_skip_then_advance.1 _ cfgA cfgB cfgC rfl rfl

/- ------------------------------------------------------------------ -/
/- C8 : routine accounting invariant                                   -/
/- ------------------------------------------------------------------ -/

/-- C8 counterexample: `complete_current` is unguarded; calling it when no
exercise is current (here: straight after loading a one-exercise routine)
increments `completed` without removing anything, breaking
`completed + queue.length + (current? 1 : 0) = total`. -/
theorem gym_c8_counterexample :
    ¬ ((WorkoutRoutine.init [cfgA]).complete_current).invariant := by
  decide

/-- C8 (amended): the accounting invariant holds initially and is preserved
by `skip_current` unconditionally, by `advance` when no exercise is current,
and by `complete_current` when an exercise is current — the call pattern the
orchestrator uses.  (Unguarded `complete_current` with `current = None`, or
`advance` with a current exercise still loaded, breaks it.) -/
theorem gym_c8_invariant_guarded :
    (∀ l : List ExerciseConfig, (WorkoutRoutine.init l).invariant) ∧
    (∀ r : WorkoutRoutine, r.invariant → r.current = none →
        (r.advance).2.invariant) ∧
    (∀ (r : WorkoutRoutine) (c : ExerciseConfig), r.invariant →
        r.current = some c → (r.complete_current).invariant) ∧
    (∀ r : WorkoutRoutine, r.invariant → (r.skip_current).invariant) := by
  refine ⟨?_, ?_, ?_, ?_⟩
  · intro l
    simp [WorkoutRoutine.init, WorkoutRoutine.invariant]
  · intro r h hcur
    rcases r with ⟨q, tot, comp, cur, dn⟩
    rcases q with _ | ⟨x, xs⟩ <;>
      simp_all [WorkoutRoutine.invariant, WorkoutRoutine.advance] <;> omega
  · intro r c h hcur
    rcases r with ⟨q, tot, comp, cur, dn⟩
    simp_all [WorkoutRoutine.invariant, WorkoutRoutine.complete_current]
    omega
  · intro r h
    rcases r with ⟨q, tot, comp, cur, dn⟩
    rcases cur with _ | c <;>
      simp_all [WorkoutRoutine.invariant, WorkoutRoutine.skip_current] <;> omega

/-- Witness for C8 (amended): load [A], advance it into `current`, complete
it; the invariant holds at each step. -/
theorem gym_c8_invariant_guarded_witness :
    (((WorkoutRoutine.init [cfgA]).advance.2).complete_current).invariant :=
  gym_c8_invariant_guarded.2.2.1 _ cfgA
    (gym_c8_invariant_guarded.2.1 _ (gym_c8_invariant_guarded.1 [cfgA]) rfl) rfl

/- ------------------------------------------------------------------ -/
/- C9 : session invariants                                             -/
/- ------------------------------------------------------------------ -/

/-- Preservation of `finished ⇒ current_set > total_sets` by any single
session method call. -/
theorem sessionApply_finished_gt (s : WorkoutSession) (op : SessionOp)
    (h : s.finished = true → s.total_sets < s.current_set) :
    (sessionApply s op).finished = true →
      (sessionApply s op).total_sets < (sessionApply s op).current_set := by
  cases op with
  | start => simp [sessionApply, WorkoutSession.start]
  | checkSetComplete trackers => exact h
  | beginRest now => simpa [sessionApply, WorkoutSession.begin_rest] using h
  | checkRestDone now => exact h
  | advanceSet =>
    simp only [sessionApply, WorkoutSession.advance_set]
    split_ifs with hgt
    · intro _
      simpa using hgt
    · intro hfin
      simp at hfin ⊢
      have := h hfin
      omega
  | shouldWarnRestBreak =>
    simp only [sessionApply, WorkoutSession.should_warn_rest_break]
    split_ifs <;> simpa using h
  | resetRestWarn => simpa [sessionApply, WorkoutSession.reset_rest_warn] using h

theorem sessionRun_finished_gt (ops : List SessionOp) :
    ∀ s : WorkoutSession, (s.finished = true → s.total_sets < s.current_set) →
      (sessionRun s ops).finished = true →
        (sessionRun s ops).total_sets < (sessionRun s ops).current_set := by
  induction ops with
  | nil => intro s h; exact h
  | cons op ops ih =>
    intro s h
    exact ih (sessionApply s op) (sessionApply_finished_gt s op h)

/-- C9 counterexample: `begin_rest` is unguarded, so calling it on a
finished session (1-set config: `start`, then `advance_set` finishes the
session) makes `resting` and `finished` simultaneously true. -/
theorem gym_c9_counterexample :
    ((((WorkoutSession.init cfgOneSet).start).advance_set.2).begin_rest 5).resting = true ∧
    ((((WorkoutSession.init cfgOneSet).start).advance_set.2).begin_rest 5).finished = true := by
  constructor <;> rfl

/-- C9 (amended): for every sequence of session method calls after
construction, `finished = true` implies `current_set > total_sets`; and
`resting`/`finished` mutual exclusion is preserved by every method call
except `begin_rest` invoked on an already-finished session (the
orchestrator never does this, as `check_set_complete` is false once
finished). -/
theorem gym_c9_invariants :
    (∀ (cfg : ExerciseConfig) (ops : List SessionOp),
        (sessionRun (WorkoutSession.init cfg) ops).finished = true →
          (sessionRun (WorkoutSession.init cfg) ops).total_sets <
            (sessionRun (WorkoutSession.init cfg) ops).current_set) ∧
    (∀ (s : WorkoutSession) (op : SessionOp),
        ¬(s.resting = true ∧ s.finished = true) →
        (∀ now, op = SessionOp.beginRest now → s.finished = false) →
        ¬((sessionApply s op).resting = true ∧
          (sessionApply s op).finished = true)) := by
  constructor
  · intro cfg ops
    refine sessionRun_finished_gt ops _ ?_
    intro h
    simp [WorkoutSession.init] at h
  · intro s op h hguard
    cases op with
    | start => simp [sessionApply, WorkoutSession.start]
    | checkSetComplete trackers => exact h
    | beginRest now =>
      simp [sessionApply, WorkoutSession.begin_rest, hguard now rfl]
    | checkRestDone now => exact h
    | advanceSet =>
      simp only [sessionApply, WorkoutSession.advance_set]
      split_ifs <;> simp
    | shouldWarnRestBreak =>
      simp only [sessionApply, WorkoutSession.should_warn_rest_break]
      split_ifs <;> simpa using h
    | resetRestWarn => simpa [sessionApply, WorkoutSession.reset_rest_warn] using h

/-- Witness for C9 at a concrete run: a 1-set session after
`start; advance_set` is finished with `current_set = 2 > 1 = total_sets`,
and `start` on a fresh session keeps the mutual exclusion. -/
theorem gym_c9_invariants_witness :
    ((sessionRun (WorkoutSession.init cfgOneSet)
        [SessionOp.start, SessionOp.advanceSet]).total_sets <
      (sessionRun (WorkoutSession.init cfgOneSet)
        [SessionOp.start, SessionOp.advanceSet]).current_set) ∧
    ¬((sessionApply (WorkoutSession.init cfgOneSet) SessionOp.start).resting = true ∧
      (sessionApply (WorkoutSession.init cfgOneSet) SessionOp.start).finished = true) :=
  ⟨gym_c9_invariants.1 cfgOneSet [SessionOp.start, SessionOp.advanceSet] rfl,
   gym_c9_invariants.2 _ _ (by simp [WorkoutSession.init]) (fun now h => by cases h)⟩
